import Mathlib

/-!
Verification of the radarr-mvp release-import pipeline.

The repository contains the unit tests describing the import endpoint
(`test_import_unit.py`) and an analytics import script
(`scripts/import_analysis_to_postgres.py`).  The metadata extractor,
quality classifier, path builder and import executor themselves are the
tested component; where their code is not in the repository the
definitions below are modelled from the specification, as flagged in
their doc comments.  The year-scan logic and the request-default logic
are embedded directly from `test_import_unit.py`.
-/

namespace Radarr

/-- A separator character of the filename normalizer.  The spec normalizes
`.` and `_` to spaces (`test_import_unit.py` line 118 replaces `.`). -/
def isSep (c : Char) : Bool := c = '.' || c = '_'

/-- Replace a separator character by a space. -/
def normalizeSep (c : Char) : Char := if isSep c then ' ' else c

/-- Split a character list on spaces, dropping empty pieces, with an
explicit accumulator (mirrors Python `str.split()` on the normalized
name, `test_import_unit.py` line 118). -/
def splitSpaces : List Char → List Char → List (List Char)
  | [], acc => if acc = [] then [] else [acc.reverse]
  | c :: cs, acc =>
    if c = ' ' then
      if acc = [] then splitSpaces cs [] else acc.reverse :: splitSpaces cs []
    else splitSpaces cs (c :: acc)

/-- Tokenize a filename: replace separators by spaces and split
(`parts = original.replace(".", " ").split()`,
`test_import_unit.py` line 118; the spec also normalizes `_`). -/
def tokenize (filename : String) : List String :=
  (splitSpaces (filename.data.map normalizeSep) []).map String.mk

/-- Year-token test, embedded from `test_import_unit.py` line 123:
`part.isdigit() and len(part) == 4 and part.startswith(("19", "20"))`. -/
def isYearToken (t : String) : Bool :=
  t.data.length = 4 && t.data.all Char.isDigit &&
    (match t.data with
     | '1' :: '9' :: _ => true
     | '2' :: '0' :: _ => true
     | _ => false)

/-- The year scan of `test_import_unit.py` lines 121-125: the first
token matching the year pattern, scanning left to right. -/
def findYear (filename : String) : Option String :=
  (tokenize filename).find? isYearToken

/-- ASCII lower-casing of a token, for the case-insensitive vocabulary
matches of the extractor. -/
def lowerStr (s : String) : String := String.mk (s.data.map Char.toLower)

/-- The closed resolution vocabulary of the spec data model. -/
def resolutions : List String := ["480p", "720p", "1080p", "2160p"]

/-- Modelled from the spec: canonical source type of a token (the
source-code quality classifier is not in the repository).  The canonical
forms follow the expected labels "Bluray-1080p" / "UHD Bluray-2160p". -/
def sourceOf (t : String) : Option String :=
  if lowerStr t = "bluray" then some "Bluray"
  else if lowerStr t = "web" || lowerStr t = "webrip" || lowerStr t = "web-dl" then some "WEB"
  else if lowerStr t = "hdtv" then some "HDTV"
  else none

/-- Modelled from the spec: codec of a token, the release group suffix
after a hyphen stripped (`x264-SPARKS` carries codec `x264`). -/
def codecOf (t : String) : Option String :=
  let base := lowerStr (String.mk (t.data.takeWhile (fun c => c ≠ '-')))
  if base = "x264" || base = "h264" then some "x264"
  else if base = "x265" || base = "h265" then some "x265"
  else none

/-- Modelled from the spec: a quality-related token (resolution, source,
codec or the UHD marker), used for title fallback when no year exists. -/
def isQualityToken (t : String) : Bool :=
  resolutions.contains (lowerStr t) || (sourceOf t).isSome ||
    (codecOf t).isSome || lowerStr t = "uhd"

/-- Modelled from the spec: release group read off a codec token with a
trailing hyphen (`x264-SPARKS` yields group `SPARKS`). -/
def groupOf (t : String) : Option String :=
  if (codecOf t).isSome && t.data.contains '-' then
    some (String.mk ((t.data.dropWhile (fun c => c ≠ '-')).tail))
  else none

/-- Numeric value of a digit token. -/
def digitsToNat (cs : List Char) : Nat :=
  cs.foldl (fun n c => 10 * n + (c.toNat - 48)) 0

/-- Join tokens with single spaces (title re-joining of the spec). -/
def joinSpaces : List String → String
  | [] => ""
  | [t] => t
  | t :: ts => t ++ " " ++ joinSpaces ts

/-- `ReleaseMetadata` of the spec data model. -/
structure ReleaseMetadata where
  title : String
  year : Option Nat
  resolution : Option String
  source : Option String
  codec : Option String
  is_uhd : Bool
  release_group : Option String
deriving DecidableEq, Repr

/-- Modelled from the spec: the filename tokenizer and metadata
extractor (spec section 4.1; the extractor itself is not in the
repository, only its year scan, embedded above from
`test_import_unit.py`).  Normalize separators, split into tokens, take
the first year-pattern token as the year, the tokens before it as the
title, and recognize resolution / source / codec / UHD marker / release
group among the tokens after the year. -/
def extractMetadata (filename : String) : ReleaseMetadata :=
  let tokens := tokenize filename
  let yearTok := tokens.find? isYearToken
  let titleToks :=
    match yearTok with
    | some _ => tokens.takeWhile (fun t => !isYearToken t)
    | none => tokens.takeWhile (fun t => !isQualityToken t)
  let rest :=
    match yearTok with
    | some _ => (tokens.dropWhile (fun t => !isYearToken t)).tail
    | none => tokens
  { title := joinSpaces titleToks
    year := yearTok.map (fun t => digitsToNat t.data)
    resolution := (rest.find? (fun t => resolutions.contains (lowerStr t))).map lowerStr
    source := rest.findSome? sourceOf
    codec := rest.findSome? codecOf
    is_uhd := rest.any (fun t => lowerStr t = "uhd")
    release_group := rest.findSome? groupOf }

/-- Modelled from the spec: the quality classifier (spec section 4.2).
Label is `[UHD ]<Source>-<Resolution>` when both are known, the
resolution alone when the source is unknown, the source alone when the
resolution is unknown; the UHD marker is emitted only for 2160p with an
explicit UHD token.  The codec argument belongs to the contract
signature but does not enter the current rule set. -/
def qualityLabel (resolution source codec : Option String) (is_uhd : Bool) : String :=
  let pre := if is_uhd && resolution = some "2160p" then "UHD " else ""
  match source, resolution with
  | some s, some r => pre ++ s ++ "-" ++ r
  | none, some r => pre ++ r
  | some s, none => s
  | none, none => ""

/-- Quality label of extracted metadata. -/
def qualityOf (m : ReleaseMetadata) : String :=
  qualityLabel m.resolution m.source m.codec m.is_uhd

/-- Extension of the original filename, dot included (empty when the
name has no dot); the spec preserves it unchanged. -/
def extOf (filename : String) : String :=
  let rev := filename.data.reverse
  if rev.contains '.' then
    String.mk ('.' :: (rev.takeWhile (fun c => c ≠ '.')).reverse)
  else ""

/-- Modelled from the spec: destination directory (spec section 4.3):
`"<Title> (<Year>)"` when the year is known, else the title. -/
def destDir (m : ReleaseMetadata) : String :=
  match m.year with
  | some y => m.title ++ " (" ++ toString y ++ ")"
  | none => m.title

/-- Modelled from the spec: destination filename (spec section 4.3):
`"<Title> (<Year>) <QualityLabel><extension>"`. -/
def destFilename (filename : String) (m : ReleaseMetadata) : String :=
  match m.year with
  | some y => m.title ++ " (" ++ toString y ++ ") " ++ qualityOf m ++ extOf filename
  | none => m.title ++ " " ++ qualityOf m ++ extOf filename

/-- Transfer strategy of an import-plan entry (spec section 4.4). -/
inductive Strategy
  | hardlink
  | copy
  | skip (reason : String)
deriving DecidableEq, Repr

/-- `ImportPlanEntry` of the spec data model, restricted to the fields
the executor consumes. -/
structure PlanEntry where
  originalPath : String
  newPath : String
  size : Nat
  quality : String
  strategy : Strategy
deriving DecidableEq, Repr

/-- `ImportStats` of the spec data model and the response format of
`test_import_unit.py` lines 17-27. -/
structure ImportStats where
  filesScanned : Nat
  filesAnalyzed : Nat
  successfulImports : Nat
  failedImports : Nat
  skippedFiles : Nat
  totalSize : Nat
  totalDurationMs : Nat
  hardlinksCreated : Nat
  filesCopied : Nat
deriving DecidableEq, Repr

/-- The all-zero initial statistics accumulator. -/
def ImportStats.zero : ImportStats :=
  ⟨0, 0, 0, 0, 0, 0, 0, 0, 0⟩

/-- A per-file outcome of `importedFiles`
(`test_import_unit.py` lines 31-39). -/
structure ImportedFile where
  originalPath : String
  newPath : String
  size : Nat
  quality : String
  hardlinked : Bool
deriving DecidableEq, Repr

/-- Filesystem model: a finite map from destination path to byte size,
the only state the executor may mutate. -/
def FS : Type := List (String × Nat)

instance : DecidableEq FS := by
  unfold FS
  infer_instance

/-- The imported-files record of a plan entry; in dry-run mode the
hardlinked flag reflects the planned strategy. -/
def mkImported (e : PlanEntry) (hard : Bool) : ImportedFile :=
  ⟨e.originalPath, e.newPath, e.size, e.quality, hard⟩

/-- Executor state: statistics accumulator, ordered per-file outcomes,
filesystem. -/
structure ExecState where
  stats : ImportStats
  importedFiles : List ImportedFile
  fs : FS
deriving DecidableEq

/-- Modelled from the spec: one executor step (spec section 4.5; the
executor itself is not in the repository).  `attempt` stands for the
filesystem call of live mode and returns the new filesystem on success,
`none` on failure.  Every entry is scanned and analyzed; a skip entry
increments `skippedFiles`; in dry-run mode the entry is counted as if
the operation succeeded, with the planned strategy's counter and flag,
and the filesystem is untouched; in live mode a failed attempt
increments `failedImports` and the run continues. -/
def execEntry (dryRun : Bool) (attempt : PlanEntry → FS → Option FS)
    (s : ExecState) (e : PlanEntry) : ExecState :=
  let st := { s.stats with
    filesScanned := s.stats.filesScanned + 1
    filesAnalyzed := s.stats.filesAnalyzed + 1 }
  match e.strategy with
  | .skip _ =>
    { s with stats := { st with skippedFiles := st.skippedFiles + 1 } }
  | .hardlink =>
    if dryRun then
      { stats := { st with
          successfulImports := st.successfulImports + 1
          hardlinksCreated := st.hardlinksCreated + 1
          totalSize := st.totalSize + e.size }
        importedFiles := s.importedFiles ++ [mkImported e true]
        fs := s.fs }
    else
      match attempt e s.fs with
      | some fs2 =>
        { stats := { st with
            successfulImports := st.successfulImports + 1
            hardlinksCreated := st.hardlinksCreated + 1
            totalSize := st.totalSize + e.size }
          importedFiles := s.importedFiles ++ [mkImported e true]
          fs := fs2 }
      | none =>
        { s with stats := { st with failedImports := st.failedImports + 1 } }
  | .copy =>
    if dryRun then
      { stats := { st with
          successfulImports := st.successfulImports + 1
          filesCopied := st.filesCopied + 1
          totalSize := st.totalSize + e.size }
        importedFiles := s.importedFiles ++ [mkImported e false]
        fs := s.fs }
    else
      match attempt e s.fs with
      | some fs2 =>
        { stats := { st with
            successfulImports := st.successfulImports + 1
            filesCopied := st.filesCopied + 1
            totalSize := st.totalSize + e.size }
          importedFiles := s.importedFiles ++ [mkImported e false]
          fs := fs2 }
      | none =>
        { s with stats := { st with failedImports := st.failedImports + 1 } }

/-- Modelled from the spec: the import executor run, a fold of
`execEntry` over the ordered plan-entry sequence. -/
def runImport (dryRun : Bool) (attempt : PlanEntry → FS → Option FS)
    (entries : List PlanEntry) (fs : FS) : ExecState :=
  entries.foldl (execEntry dryRun attempt) ⟨ImportStats.zero, [], fs⟩

/-- Import request of the external interface, each field optional in
the incoming JSON object (`test_import_unit.py` lines 61-91). -/
structure ImportRequest where
  path : Option String
  outputPath : Option String
  dryRun : Option Bool
deriving DecidableEq, Repr

/-- Request parsing embedded from `test_import_unit.py` lines 72-74:
`request.get("path", "/downloads")`, `request.get("outputPath",
"/movies")`, `request.get("dryRun", True)`. -/
def parseRequest (r : ImportRequest) : String × String × Bool :=
  (r.path.getD "/downloads", r.outputPath.getD "/movies", r.dryRun.getD true)

/-- Import response of the external interface
(`test_import_unit.py` lines 14-40). -/
structure ImportResponse where
  success : Bool
  message : String
  stats : ImportStats
  dryRun : Bool
  sourcePath : String
  destinationPath : String
  importedFiles : List ImportedFile
deriving DecidableEq, Repr

/-- The mock response of `test_import_response_format`
(`test_import_unit.py` lines 14-40), embedded literally. -/
def mock_response : ImportResponse :=
  { success := true
    message := "Import completed successfully (MVP simulation)"
    stats :=
      { filesScanned := 1
        filesAnalyzed := 1
        successfulImports := 1
        failedImports := 0
        skippedFiles := 0
        totalSize := 1500000000
        totalDurationMs := 1200
        hardlinksCreated := 1
        filesCopied := 0 }
    dryRun := true
    sourcePath := "/downloads"
    destinationPath := "/movies"
    importedFiles :=
      [{ originalPath := "/downloads/Fight.Club.1999.1080p.BluRay.x264-SPARKS.mkv"
         newPath := "/movies/Fight Club (1999)/Fight Club (1999) Bluray-1080p.mkv"
         size := 1500000000
         quality := "Bluray-1080p"
         hardlinked := false }] }

/-! ### Analytics store (`scripts/import_analysis_to_postgres.py`)

Timestamps are modelled as an abstract `now : Nat` passed in; SQL
`DECIMAL` values as `Rat`.  The tables touched by `import_scene_group`
and `import_release` are embedded as lists of rows. -/

/-- Metrics dictionary consumed by `import_scene_group`; an absent key
(`metrics.get(..., default)`) is `none`. -/
structure Metrics where
  is_internal : Option Bool
  release_count : Option Rat
  internal_releases : Option Rat
  total_size_gb : Option Rat
  average_size_gb : Option Rat
  freeleech_count : Option Rat
  freeleech_percentage : Option Rat
deriving DecidableEq, Repr

/-- A row of `scene_groups`. -/
structure SceneGroupRow where
  id : Nat
  name : String
  group_type : String
  last_seen : Option Nat
  last_analyzed : Option Nat
  metadata : Metrics
  reputation_score : Option Rat
  confidence_level : Option Rat
deriving DecidableEq, Repr

/-- A row of `scene_group_metrics`, keyed by (scene_group_id,
analysis_date). -/
structure GroupMetricsRow where
  scene_group_id : Nat
  analysis_date : Nat
  release_count : Rat
  internal_release_count : Rat
  total_size_gb : Rat
  average_size_gb : Rat
  freeleech_count : Rat
  freeleech_percentage : Rat
deriving DecidableEq, Repr

/-- A row of `scene_group_reputation_history`. -/
structure ReputationHistoryRow where
  scene_group_id : Nat
  analysis_session_id : Nat
  new_score : Rat
  sample_size : Rat
  confidence : Rat
deriving DecidableEq, Repr

/-- A row of `release_analysis`; `info_hash` is its conflict key and is
nullable. -/
structure ReleaseRow where
  scene_group_id : Option Nat
  release_name : String
  info_hash : Option String
  title : Option String
  year : Option Nat
  codec : Option String
  resolution : Option String
  source : Option String
  size_gb : Rat
  is_internal : Bool
  is_freeleech : Bool
  seeders : Int
  leechers : Int
deriving DecidableEq, Repr

/-- The release dictionary consumed by `import_release`; absent keys
are `none`. -/
structure ReleaseData where
  name : Option String
  info_hash : Option String
  title : Option String
  year : Option Nat
  codec : Option String
  resolution : Option String
  source : Option String
  size_gb : Option Rat
  is_internal : Option Bool
  is_freeleech : Option Bool
  seeders : Option Int
  leechers : Option Int
deriving DecidableEq, Repr

/-- The committed database state touched by the importer. -/
structure AnalyticsDB where
  scene_groups : List SceneGroupRow
  scene_group_metrics : List GroupMetricsRow
  reputation_history : List ReputationHistoryRow
  release_analysis : List ReleaseRow
  next_group_id : Nat
deriving DecidableEq, Repr

/-- The row `import_release` builds from its arguments
(`scripts/import_analysis_to_postgres.py` lines 191-206), with the
`.get` defaults of the Python code. -/
def releaseRowOf (rd : ReleaseData) (group_id : Option Nat) : ReleaseRow :=
  { scene_group_id := group_id
    release_name := rd.name.getD ""
    info_hash := rd.info_hash
    title := rd.title
    year := rd.year
    codec := rd.codec
    resolution := rd.resolution
    source := rd.source
    size_gb := rd.size_gb.getD 0
    is_internal := rd.is_internal.getD false
    is_freeleech := rd.is_freeleech.getD false
    seeders := rd.seeders.getD 0
    leechers := rd.leechers.getD 0 }

/-- SQL conflict test on the unique `info_hash` column: two NULLs never
conflict (PostgreSQL treats NULLs as distinct in a unique index), two
present hashes conflict exactly when equal. -/
def hashConflict (a b : Option String) : Bool :=
  match a, b with
  | some x, some y => x = y
  | _, _ => false

/-- `import_release` (`scripts/import_analysis_to_postgres.py` lines
179-210): `INSERT INTO release_analysis ... ON CONFLICT (info_hash) DO
NOTHING`, then commit.  When a row with a conflicting `info_hash`
exists the insert does nothing; otherwise the row is appended. -/
def import_release (rd : ReleaseData) (group_id : Option Nat)
    (tbl : List ReleaseRow) : List ReleaseRow :=
  let row := releaseRowOf rd group_id
  if tbl.any (fun r => hashConflict r.info_hash row.info_hash) then tbl
  else tbl ++ [row]

/-- JSONB merge `metadata || new` of the group-update branch: keys
present in the new metrics override the stored metadata. -/
def mergeMetrics (old new : Metrics) : Metrics :=
  { is_internal := new.is_internal <|> old.is_internal
    release_count := new.release_count <|> old.release_count
    internal_releases := new.internal_releases <|> old.internal_releases
    total_size_gb := new.total_size_gb <|> old.total_size_gb
    average_size_gb := new.average_size_gb <|> old.average_size_gb
    freeleech_count := new.freeleech_count <|> old.freeleech_count
    freeleech_percentage := new.freeleech_percentage <|> old.freeleech_percentage }

/-- The select-then-update-or-insert step of `import_scene_group`
(`scripts/import_analysis_to_postgres.py` lines 94-117): update
`last_seen` / `last_analyzed` / merged metadata when the group name
exists, else insert a new row whose `group_type` follows
`metrics.get('is_internal', False)`; either way the group id is
returned. -/
def upsertGroup (db : AnalyticsDB) (group_name : String) (metrics : Metrics)
    (now : Nat) : AnalyticsDB × Nat :=
  match db.scene_groups.find? (fun g => g.name = group_name) with
  | some g =>
    let g2 := { g with
      last_seen := some now
      last_analyzed := some now
      metadata := mergeMetrics g.metadata metrics }
    ({ db with
        scene_groups := db.scene_groups.map (fun h => if h.id = g.id then g2 else h) },
      g.id)
  | none =>
    let gt := if metrics.is_internal.getD false then "internal" else "scene"
    let g2 : SceneGroupRow :=
      { id := db.next_group_id, name := group_name, group_type := gt
        last_seen := none, last_analyzed := none, metadata := metrics
        reputation_score := none, confidence_level := none }
    ({ db with
        scene_groups := db.scene_groups ++ [g2]
        next_group_id := db.next_group_id + 1 },
      db.next_group_id)

/-- `INSERT ... ON CONFLICT (scene_group_id, analysis_date) DO UPDATE`
of the metrics insert (`scripts/import_analysis_to_postgres.py` lines
120-133). -/
def upsertGroupMetrics (tbl : List GroupMetricsRow) (row : GroupMetricsRow) :
    List GroupMetricsRow :=
  if tbl.any (fun r => r.scene_group_id = row.scene_group_id &&
      r.analysis_date = row.analysis_date) then
    tbl.map (fun r =>
      if r.scene_group_id = row.scene_group_id && r.analysis_date = row.analysis_date
      then row else r)
  else tbl ++ [row]

/-- The transaction body of `import_scene_group`
(`scripts/import_analysis_to_postgres.py` lines 93-172): upsert the
group, upsert its metrics row, call the reputation procedure, update
score and confidence `LEAST(100, release_count / 10 * 10)`, and record
reputation history when a session exists.  `repFn` is modelled from the
spec: it stands for the stored procedure
`calculate_scene_group_reputation`, which is not in the repository, and
for any database error a statement may raise. -/
def import_scene_group_steps (repFn : AnalyticsDB → Nat → Except String Rat)
    (db : AnalyticsDB) (session_id : Option Nat) (group_name : String)
    (metrics : Metrics) (now : Nat) : Except String (AnalyticsDB × Nat) := do
  let (db1, group_id) := upsertGroup db group_name metrics now
  let rc := metrics.release_count.getD 0
  let mrow : GroupMetricsRow :=
    { scene_group_id := group_id
      analysis_date := now
      release_count := rc
      internal_release_count := metrics.internal_releases.getD 0
      total_size_gb := metrics.total_size_gb.getD 0
      average_size_gb := metrics.average_size_gb.getD 0
      freeleech_count := metrics.freeleech_count.getD 0
      freeleech_percentage := metrics.freeleech_percentage.getD 0 }
  let db2 := { db1 with scene_group_metrics := upsertGroupMetrics db1.scene_group_metrics mrow }
  let new_score ← repFn db2 group_id
  let conf : Rat := min 100 (rc / 10 * 10)
  let db3 := { db2 with
    scene_groups := db2.scene_groups.map (fun g =>
      if g.id = group_id then
        { g with reputation_score := some new_score, confidence_level := some conf }
      else g) }
  let db4 :=
    match session_id with
    | some sid =>
      { db3 with reputation_history := db3.reputation_history ++
          [{ scene_group_id := group_id, analysis_session_id := sid
             new_score := new_score, sample_size := rc
             confidence := min 100 (rc / 10 * 10) }] }
    | none => db3
  return (db4, group_id)

/-- `import_scene_group` (`scripts/import_analysis_to_postgres.py`
lines 90-177): the body runs inside try/except; on success the
transaction commits and the group id is returned, on any exception the
transaction is rolled back — the committed state is unchanged — and the
function returns `None`. -/
def import_scene_group (repFn : AnalyticsDB → Nat → Except String Rat)
    (db : AnalyticsDB) (session_id : Option Nat) (group_name : String)
    (metrics : Metrics) (now : Nat) : AnalyticsDB × Option Nat :=
  match import_scene_group_steps repFn db session_id group_name metrics now with
  | .ok (db2, gid) => (db2, some gid)
  | .error _ => (db, none)

/-- Concrete metadata for the codec-independence witness. -/
def mW1 : ReleaseMetadata :=
  { title := "Fight Club", year := some 1999, resolution := some "1080p"
    source := some "Bluray", codec := some "x264", is_uhd := false
    release_group := some "SPARKS" }

/-- `mW1` with the other codec. -/
def mW2 : ReleaseMetadata := { mW1 with codec := some "x265" }

/-- A release dictionary with every key absent (`info_hash` NULL). -/
def rdNull : ReleaseData :=
  { name := none, info_hash := none, title := none, year := none
    codec := none, resolution := none, source := none, size_gb := none
    is_internal := none, is_freeleech := none, seeders := none, leechers := none }

/-- A release dictionary carrying an `info_hash`. -/
def rdHashed : ReleaseData := { rdNull with info_hash := some "abcdef0123456789" }

/-- A reputation procedure that raises, for the rollback witness. -/
def failRepFn : AnalyticsDB → Nat → Except String Rat := fun _ _ => .error "db error"

/-- The empty committed database. -/
def emptyDB : AnalyticsDB :=
  { scene_groups := [], scene_group_metrics := [], reputation_history := []
    release_analysis := [], next_group_id := 1 }

/-- An empty metrics dictionary. -/
def emptyMetrics : Metrics :=
  { is_internal := none, release_count := none, internal_releases := none
    total_size_gb := none, average_size_gb := none, freeleech_count := none
    freeleech_percentage := none }

end Radarr

namespace Radarr

/-! ### Helper lemmas -/

/-- `List.find?` on a list split around the first satisfying element
returns that element. -/
theorem find?_first_of_prefix_none (p : String → Bool) :
    ∀ (l1 : List String) (y : String) (l2 : List String),
      (∀ t ∈ l1, p t = false) → p y = true →
      (l1 ++ y :: l2).find? p = some y := by
  intro l1
  induction l1 with
  | nil =>
    intro y l2 _ hy
    simp [List.find?_cons, hy]
  | cons t ts ih =>
    intro y l2 h hy
    have ht : p t = false := h t (by simp)
    simp only [List.cons_append, List.find?_cons, ht]
    exact ih y l2 (fun u hu => h u (by simp [hu])) hy

/-- One executor step preserves the counting invariant
`filesScanned = successfulImports + failedImports + skippedFiles`. -/
theorem execEntry_partition (d : Bool) (a : PlanEntry → FS → Option FS)
    (s : ExecState) (e : PlanEntry)
    (h : s.stats.filesScanned =
      s.stats.successfulImports + s.stats.failedImports + s.stats.skippedFiles) :
    (execEntry d a s e).stats.filesScanned =
      (execEntry d a s e).stats.successfulImports +
        (execEntry d a s e).stats.failedImports +
        (execEntry d a s e).stats.skippedFiles := by
  cases d <;> cases hs : e.strategy <;> cases hatt : a e s.fs <;>
    simp [execEntry, hs, hatt] <;> omega

/-- The executor fold preserves the counting invariant. -/
theorem foldl_partition (d : Bool) (a : PlanEntry → FS → Option FS) :
    ∀ (entries : List PlanEntry) (s : ExecState),
      s.stats.filesScanned =
        s.stats.successfulImports + s.stats.failedImports + s.stats.skippedFiles →
      (entries.foldl (execEntry d a) s).stats.filesScanned =
        (entries.foldl (execEntry d a) s).stats.successfulImports +
          (entries.foldl (execEntry d a) s).stats.failedImports +
          (entries.foldl (execEntry d a) s).stats.skippedFiles := by
  intro entries
  induction entries with
  | nil => intro s h; simpa using h
  | cons e es ih =>
    intro s h
    simp only [List.foldl_cons]
    exact ih (execEntry d a s e) (execEntry_partition d a s e h)

/-- A dry-run executor step leaves the filesystem untouched. -/
theorem execEntry_dry_fs (a : PlanEntry → FS → Option FS) (s : ExecState) (e : PlanEntry) :
    (execEntry true a s e).fs = s.fs := by
  cases hs : e.strategy <;> simp [execEntry, hs]

/-- The dry-run executor fold leaves the filesystem untouched. -/
theorem foldl_dry_fs (a : PlanEntry → FS → Option FS) :
    ∀ (entries : List PlanEntry) (s : ExecState),
      (entries.foldl (execEntry true a) s).fs = s.fs := by
  intro entries
  induction entries with
  | nil => intro s; rfl
  | cons e es ih =>
    intro s
    simp only [List.foldl_cons]
    rw [ih (execEntry true a s e), execEntry_dry_fs]

/-! ### Claims -/

/-- C1: for every filename containing one or more 4-digit tokens
beginning with "19" or "20", year extraction returns the first such
token in a left-to-right scan of the separator-normalized token
sequence; later matching tokens are not used as the year. -/
theorem findYear_first_match (filename : String) (l1 l2 : List String) (y : String)
    (htok : tokenize filename = l1 ++ y :: l2)
    (hy : isYearToken y = true)
    (hl1 : ∀ t ∈ l1, isYearToken t = false) :
    findYear filename = some y := by
  unfold findYear
  rw [htok]
  exact find?_first_of_prefix_none isYearToken l1 y l2 hl1 hy

/-- Witness for C1: in `Movie.1999.2012.1080p.mkv` both 1999 and 2012
match the year pattern; the first one wins. -/
theorem findYear_first_match_witness :
    findYear "Movie.1999.2012.1080p.mkv" = some "1999" :=
  findYear_first_match "Movie.1999.2012.1080p.mkv" ["Movie"] ["2012", "1080p", "mkv"]
    "1999" (by decide) (by decide) (by decide)

/-- C2: for every filename with no 4-digit token beginning with "19" or
"20", extraction terminates with the year absent — the extractor is a
total Lean function, so termination without an exception holds by
construction, and the year field is `none`. -/
theorem extractMetadata_year_absent (filename : String)
    (h : ∀ t ∈ tokenize filename, isYearToken t = false) :
    (extractMetadata filename).year = none ∧ findYear filename = none := by
  have hfind : (tokenize filename).find? isYearToken = none := by
    rw [List.find?_eq_none]
    intro x hx
    simp [h x hx]
  constructor
  · simp [extractMetadata, hfind]
  · simp [findYear, hfind]

/-- Witness for C2: `Some.Movie.mkv` has no year token. -/
theorem extractMetadata_year_absent_witness :
    (extractMetadata "Some.Movie.mkv").year = none ∧
      findYear "Some.Movie.mkv" = none :=
  extractMetadata_year_absent "Some.Movie.mkv" (by decide)

/-- C3: for every run — dry or live, any filesystem, any attempt
outcomes — the final statistics satisfy
`filesScanned = successfulImports + failedImports + skippedFiles`:
every plan entry is counted in exactly one of the three categories. -/
theorem runImport_stats_partition (d : Bool) (a : PlanEntry → FS → Option FS)
    (entries : List PlanEntry) (fs : FS) :
    (runImport d a entries fs).stats.filesScanned =
      (runImport d a entries fs).stats.successfulImports +
        (runImport d a entries fs).stats.failedImports +
        (runImport d a entries fs).stats.skippedFiles := by
  unfold runImport
  exact foldl_partition d a entries ⟨ImportStats.zero, [], fs⟩ rfl

/-- C4: a dry run leaves the filesystem exactly as it was — no entry
created, modified or deleted — and running the same dry run again on
the resulting state yields identical `importedFiles` output. -/
theorem runImport_dry_run_frame (a : PlanEntry → FS → Option FS)
    (entries : List PlanEntry) (fs : FS) :
    (runImport true a entries fs).fs = fs ∧
    (runImport true a entries (runImport true a entries fs).fs).importedFiles =
      (runImport true a entries fs).importedFiles := by
  have hfs : (runImport true a entries fs).fs = fs := foldl_dry_fs a entries _
  exact ⟨hfs, by rw [hfs]⟩

/-- C5: the repository's own expected dry-run response
(`test_import_unit.py` lines 14-40) counts one hardlink in the stats
yet flags its single `importedFiles` entry `hardlinked = False`,
contradicting the claim that an entry counted under `hardlinksCreated`
carries `hardlinked = true` under the planned-strategy convention. -/
theorem mock_response_hardlink_flag_mismatch :
    mock_response.dryRun = true ∧
    mock_response.stats.hardlinksCreated = 1 ∧
    mock_response.importedFiles.map ImportedFile.hardlinked = [false] :=
  ⟨rfl, rfl, rfl⟩

/-- C6: the quality label of two metadata instances with identical
(resolution, source, is_uhd) triples is identical regardless of the
codec field. -/
theorem qualityOf_codec_independent (m1 m2 : ReleaseMetadata)
    (hr : m1.resolution = m2.resolution) (hs : m1.source = m2.source)
    (hu : m1.is_uhd = m2.is_uhd) :
    qualityOf m1 = qualityOf m2 := by
  unfold qualityOf qualityLabel
  rw [hr, hs, hu]

/-- Witness for C6: the same triple with codecs x264 and x265. -/
theorem qualityOf_codec_independent_witness :
    qualityOf mW1 = qualityOf mW2 :=
  qualityOf_codec_independent mW1 mW2 rfl rfl rfl

/-- C7: the pipeline on `Fight.Club.1999.1080p.BluRay.x264-SPARKS.mkv`
yields title "Fight Club", year 1999, quality "Bluray-1080p", directory
"Fight Club (1999)" and filename "Fight Club (1999) Bluray-1080p.mkv";
on `The.Matrix.1999.2160p.UHD.BluRay.x265-SPARKS.mkv` it yields quality
"UHD Bluray-2160p" and directory "The Matrix (1999)". -/
theorem pipeline_scenarios :
    (extractMetadata "Fight.Club.1999.1080p.BluRay.x264-SPARKS.mkv").title = "Fight Club" ∧
    (extractMetadata "Fight.Club.1999.1080p.BluRay.x264-SPARKS.mkv").year = some 1999 ∧
    qualityOf (extractMetadata "Fight.Club.1999.1080p.BluRay.x264-SPARKS.mkv") = "Bluray-1080p" ∧
    destDir (extractMetadata "Fight.Club.1999.1080p.BluRay.x264-SPARKS.mkv") = "Fight Club (1999)" ∧
    destFilename "Fight.Club.1999.1080p.BluRay.x264-SPARKS.mkv"
      (extractMetadata "Fight.Club.1999.1080p.BluRay.x264-SPARKS.mkv") =
      "Fight Club (1999) Bluray-1080p.mkv" ∧
    qualityOf (extractMetadata "The.Matrix.1999.2160p.UHD.BluRay.x265-SPARKS.mkv") = "UHD Bluray-2160p" ∧
    destDir (extractMetadata "The.Matrix.1999.2160p.UHD.BluRay.x265-SPARKS.mkv") = "The Matrix (1999)" := by
  decide

/-- C8: a missing `path` defaults to "/downloads", a missing
`outputPath` to "/movies", a missing `dryRun` to `true`; a present
field is used exactly as given. -/
theorem parseRequest_defaults (r : ImportRequest) :
    (r.path = none → (parseRequest r).1 = "/downloads") ∧
    (∀ p, r.path = some p → (parseRequest r).1 = p) ∧
    (r.outputPath = none → (parseRequest r).2.1 = "/movies") ∧
    (∀ o, r.outputPath = some o → (parseRequest r).2.1 = o) ∧
    (r.dryRun = none → (parseRequest r).2.2 = true) ∧
    (∀ d, r.dryRun = some d → (parseRequest r).2.2 = d) := by
  refine ⟨fun h => ?_, fun p h => ?_, fun h => ?_, fun o h => ?_, fun h => ?_, fun d h => ?_⟩ <;>
    simp [parseRequest, h]

/-- Witness for C8: a request with only `outputPath` present. -/
theorem parseRequest_defaults_witness :
    (parseRequest ⟨none, some "/data", none⟩).1 = "/downloads" ∧
    (parseRequest ⟨none, some "/data", none⟩).2.1 = "/data" ∧
    (parseRequest ⟨none, some "/data", none⟩).2.2 = true :=
  ⟨(parseRequest_defaults ⟨none, some "/data", none⟩).1 rfl,
   (parseRequest_defaults ⟨none, some "/data", none⟩).2.2.2.1 "/data" rfl,
   (parseRequest_defaults ⟨none, some "/data", none⟩).2.2.2.2.1 rfl⟩

/-- C9 counterexample: with a NULL `info_hash` the `ON CONFLICT
(info_hash)` arbiter never fires (NULLs are distinct in a unique
index), so importing the same record twice inserts a second row — the
claim fails as stated for that input. -/
theorem import_release_null_hash_counterexample :
    import_release rdNull none (import_release rdNull none []) ≠
      import_release rdNull none [] := by
  decide

/-- C9 (amended): importing the same release record twice with the same
present (non-NULL) `info_hash` is idempotent — the second call inserts
nothing and leaves the table identical. -/
theorem import_release_idempotent (rd : ReleaseData) (gid : Option Nat)
    (tbl : List ReleaseRow) (hsh : String) (h : rd.info_hash = some hsh) :
    import_release rd gid (import_release rd gid tbl) = import_release rd gid tbl := by
  have hrow : (releaseRowOf rd gid).info_hash = some hsh := h
  unfold import_release
  by_cases hc :
      (tbl.any fun r => hashConflict r.info_hash (releaseRowOf rd gid).info_hash) = true
  · simp [hc]
  · have hself :
        hashConflict (releaseRowOf rd gid).info_hash (releaseRowOf rd gid).info_hash = true := by
      rw [hrow]
      simp [hashConflict]
    simp [hc, List.any_append, hself]

/-- Witness for C9 (amended): two imports of a hashed release into the
empty table. -/
theorem import_release_idempotent_witness :
    import_release rdHashed none (import_release rdHashed none []) =
      import_release rdHashed none [] :=
  import_release_idempotent rdHashed none [] "abcdef0123456789" rfl

/-- C10: whenever the transaction body of `import_scene_group` raises,
the transaction is rolled back — the committed database state is
returned unchanged — and the function returns `None` instead of
propagating the exception. -/
theorem import_scene_group_rollback (repFn : AnalyticsDB → Nat → Except String Rat)
    (db : AnalyticsDB) (session_id : Option Nat) (group_name : String)
    (metrics : Metrics) (now : Nat) (e : String)
    (h : import_scene_group_steps repFn db session_id group_name metrics now = .error e) :
    import_scene_group repFn db session_id group_name metrics now = (db, none) := by
  simp [import_scene_group, h]

/-- Witness for C10: a reputation procedure that raises rolls the run
back on the empty database. -/
theorem import_scene_group_rollback_witness :
    import_scene_group failRepFn emptyDB none "EVO" emptyMetrics 0 = (emptyDB, none) :=
  import_scene_group_rollback failRepFn emptyDB none "EVO" emptyMetrics 0 "db error" rfl

end Radarr
